import Mathlib

/-!
Verification of the close-wizard core of the bot-crm-worker repository.

The definitions below are a shallow embedding of the Python source:
  * `b24`            — app_web/main.py, `b24` (single Bitrix REST call)
  * `b24ListLoop`    — app_web/main.py, `b24_list` (offset pagination loop)
  * `reportCountLoop`— worker/report_worker.py, the cursor loop in `build_full_report`
  * `factsPageKb`    — app_web/main.py, `_facts_page_kb`
  * `mkUpdateFields` / `runFinalizeClose` — app_web/main.py, `_finalize_close`
  * `cbCloseDealStart`, `cbFactPage`, `cbFactSelect`, `cbReasonSkip`,
    `cbCloseCancel`, `onTextMessage` — the aiogram handlers driving the wizard
  * `dictGet`/`dictSet`/`dictPop` — the `_PENDING_CLOSE` Python dict, modelled
    as an association list with unique keys.

Python-level conventions used throughout: optional / falsy values are
`Option` (with `pyOrS` for `x or default` on strings), machine integers are
`Int`/`Nat`, exceptions are `Except`, and the network is an explicit
environment (`Env`).
-/

/-- Whitespace characters stripped by Python `str.strip()` (ASCII set). -/
def pyIsSpace (c : Char) : Bool :=
  c = ' ' || c = '\t' || c = '\n' || c = '\r' || c.toNat = 11 || c.toNat = 12

/-- Python `str.strip()`. -/
def pyStrip (s : String) : String :=
  ⟨((s.data.dropWhile pyIsSpace).reverse.dropWhile pyIsSpace).reverse⟩

/-- Python `x or default` for string-valued fields (`None` and `""` are falsy). -/
def pyOrS (o : Option String) (d : String) : String :=
  match o with
  | none => d
  | some s => if s = "" then d else s

/-- Digit-string to number, `none` unless the (nonempty) input is all digits. -/
def digitsToNat : List Char → Option Nat
  | [] => none
  | cs =>
    if cs.all Char.isDigit then
      some (cs.foldl (fun a c => a * 10 + (c.toNat - 48)) 0)
    else none

/-- Python `int(s)` on a decimal literal, as used on callback payloads:
optional sign after stripping surrounding whitespace; `none` models the
`ValueError` branch (the handler then falls back to `0`). -/
def pyIntParse (s : String) : Option Int :=
  match (pyStrip s).data with
  | [] => none
  | c :: rest =>
    if c = '-' then (digitsToNat rest).map (fun n => -(n : Int))
    else if c = '+' then (digitsToNat rest).map (fun n => (n : Int))
    else (digitsToNat (c :: rest)).map (fun n => (n : Int))

/-- One character of Python `html.escape` (quote=True). -/
def escChar (c : Char) : List Char :=
  if c = '&' then "&amp;".data
  else if c = '<' then "&lt;".data
  else if c = '>' then "&gt;".data
  else if c.toNat = 34 then "&quot;".data
  else if c.toNat = 39 then "&#x27;".data
  else [c]

/-- Python `html.escape(s)` with default quoting. -/
def htmlEscape (s : String) : String :=
  ⟨(s.data.map escChar).flatten⟩

/-- Is the character `p` or `P` (the regex in `_strip_bb` is case-insensitive). -/
def isPChar (c : Char) : Bool := c = 'p' || c = 'P'

/-- Removes every occurrence of the fixed tags matched by `re.sub(r"\[/?p\]", ...)`
scanning left to right, exactly as the regex engine does for this pattern. -/
def stripBBAux : List Char → List Char
  | [] => []
  | '[' :: c :: ']' :: rest =>
    if isPChar c then stripBBAux rest else '[' :: stripBBAux (c :: ']' :: rest)
  | '[' :: '/' :: c :: ']' :: rest =>
    if isPChar c then stripBBAux rest else '[' :: stripBBAux ('/' :: c :: ']' :: rest)
  | c :: rest => c :: stripBBAux rest

/-- `_strip_bb` from app_web/main.py: drop `[p]`-style tags, then strip. -/
def stripBB (text : String) : String :=
  pyStrip ⟨stripBBAux text.data⟩

/-- A parsed Bitrix JSON response (`data` in `b24`): the envelope either has
an `error` (with optional description) or a `result` payload. -/
structure BxResponse (α : Type) where
  error : Option String
  error_description : Option String
  result : Option α
deriving Repr

/-- `b24` from app_web/main.py. The function issues a single HTTP POST and
either raises on any `error` in the envelope or returns the `result`; there
is no loop of any kind. To let the retry policy be stated, the network is an
attempt-indexed oracle `backend` and the first component counts the POST
requests the function performs (always exactly one: only `backend 0` is
consulted). -/
def b24 {α : Type} (backend : Nat → BxResponse α) : Nat × Except String (Option α) :=
  let data := backend 0
  match data.error with
  | some e =>
    (1, Except.error ("B24 error: " ++ e ++ ": " ++ data.error_description.getD "None"))
  | none => (1, Except.ok data.result)

/-- The loop of `b24_list` from app_web/main.py: request page at `start`,
append it, stop as soon as a page is shorter than `page_size`, otherwise
advance `start` by `page_size`. The `fuel` bounds the number of iterations
(the Python loop is unbounded; every theorem supplies enough fuel). -/
def b24ListLoop {α : Type} (server : Nat → List α) (pageSize : Nat) :
    Nat → Nat → List α → List α
  | 0, _start, items => items
  | fuel + 1, start, items =>
    let chunk := server start
    let items2 := items ++ chunk
    if chunk.length < pageSize then items2
    else b24ListLoop server pageSize fuel (start + pageSize) items2

/-- The synthetic offset backend of the spec's pagination property: `N` items
served in pages of `pageSize` starting at the requested offset. -/
def offsetServer {α : Type} (allItems : List α) (pageSize : Nat) : Nat → List α :=
  fun start => (allItems.drop start).take pageSize

/-- `b24_list` run against the synthetic offset backend. -/
def b24List {α : Type} (allItems : List α) (pageSize fuel : Nat) : List α :=
  b24ListLoop (offsetServer allItems pageSize) pageSize fuel 0 []

/-- The cursor-style counting loop inside `build_full_report`
(worker/report_worker.py): while the previous response carried a `next`
cursor and fewer than 1000 items have been accumulated, fetch the page at
the cursor and add its length; a response without `next` ends the loop. -/
def reportCountLoop (server : Nat → List Unit × Option Nat) :
    Nat → Nat → Nat → Nat
  | 0, _start, total => total
  | fuel + 1, start, total =>
    if total < 1000 then
      match server start with
      | (items, some nxt) => reportCountLoop server fuel nxt (total + items.length)
      | (items, none) => total + items.length
    else total

/-- The synthetic cursor backend: `n` items in pages of `pageSize`; the
`next` cursor is present exactly while more items remain past this page. -/
def cursorServer (n pageSize : Nat) : Nat → List Unit × Option Nat :=
  fun start =>
    (List.replicate (min pageSize (n - start)) (),
     if start + pageSize < n then some (start + pageSize) else none)

/-- The per-brigade deal count of `build_full_report` against the synthetic
cursor backend. -/
def reportCount (n pageSize fuel : Nat) : Nat :=
  reportCountLoop (cursorServer n pageSize) fuel 0 0

/-- The fields of a fetched deal that `_finalize_close` reads, as delivered
by `crm.deal.get` (absent / null JSON fields are `none`). -/
structure Deal where
  CATEGORY_ID : Option String
  COMMENTS : Option String
deriving Repr, DecidableEq

/-- `_BRIGADE_EXEC_OPTION_ID` from app_web/main.py. -/
def brigadeExecOptionId : Nat → Option Nat
  | 1 => some 5494
  | 2 => some 5496
  | 3 => some 5498
  | 4 => some 5500
  | 5 => some 5502
  | _ => none

/-- The `fields` dict passed to `crm.deal.update` by `_finalize_close`;
`UF_CRM_1611995532420` is `none` when the key is not put into the dict. -/
structure UpdateFields where
  STAGE_ID : String
  COMMENTS : String
  UF_CRM_1602766787968 : String
  UF_CRM_1702456465911 : String
  UF_CRM_1611995532420 : Option (List Nat)
deriving Repr, DecidableEq

/-- The audit block appended by `_finalize_close`: the closing line with the
escaped outcome label, plus the reason line only when the reason is truthy. -/
def closeBlock (factName reasonText : String) : String :=
  let b := "[p]<b>Закриття:</b> " ++ htmlEscape factName ++ "[/p]"
  if reasonText = "" then b
  else b ++ "\n[p]<b>Причина ремонту:</b> " ++ htmlEscape reasonText ++ "[/p]"

/-- The pure part of `_finalize_close`: the update payload computed from the
fetched deal, the acting user's brigade, the selected outcome and the reason. -/
def mkUpdateFields (deal : Deal) (brigade : Option Nat)
    (factVal factName reasonText : String) : UpdateFields :=
  let category := pyOrS deal.CATEGORY_ID "0"
  let targetStage := "C" ++ category ++ ":WON"
  let prevComments := stripBB (pyOrS deal.COMMENTS "")
  let block := closeBlock factName reasonText
  let newComments := if prevComments = "" then block else prevComments ++ "\n\n" ++ block
  let execList : Option (List Nat) :=
    match brigade with
    | some b => (brigadeExecOptionId b).map (fun x => [x])
    | none => none
  { STAGE_ID := targetStage
    COMMENTS := newComments
    UF_CRM_1602766787968 := factVal
    UF_CRM_1702456465911 := reasonText
    UF_CRM_1611995532420 := execList }

/-- Number of options per keyboard page (`_FACTS_PER_PAGE`). -/
def factsPerPage : Nat := 8

/-- `total_pages` as computed in `_facts_page_kb`. -/
def totalPagesOf (facts : List (String × String)) : Nat :=
  max 1 ((facts.length + factsPerPage - 1) / factsPerPage)

/-- `max(0, min(page, total_pages - 1))` from `_facts_page_kb`. -/
def clampPage (page : Int) (totalPages : Nat) : Nat :=
  (max (min page ((totalPages : Int) - 1)) 0).toNat

/-- The rendered inline keyboard of `_facts_page_kb`: one `(text, callback)`
button per visible option, the navigation affordances, and the cancel row. -/
structure FactsKb where
  optionButtons : List (String × String)
  navShown : Bool
  hasPrev : Bool
  pageLabel : String
  hasNext : Bool
  cancelData : String
deriving Repr, DecidableEq

/-- `_facts_page_kb` from app_web/main.py. Pure: it only consumes the cached
option list passed to it. -/
def factsPageKb (dealId : String) (page : Int)
    (facts : List (String × String)) : FactsKb :=
  let totalPages := totalPagesOf facts
  let p := clampPage page totalPages
  let start := p * factsPerPage
  let chunk := (facts.drop start).take factsPerPage
  { optionButtons :=
      chunk.map (fun vn => (vn.2.take 64, "factsel:" ++ dealId ++ ":" ++ vn.1))
    navShown := decide (1 < totalPages)
    hasPrev := decide (1 < totalPages) && decide (0 < p)
    pageLabel := "Стор. " ++ toString (p + 1) ++ "/" ++ toString totalPages
    hasNext := decide (1 < totalPages) && decide (p + 1 < totalPages)
    cancelData := "cmtcancel:" ++ dealId }

/-- One `_PENDING_CLOSE` entry. `pick_fact` dicts hold a `page`; the dict
written by `cb_fact_select` has no `page` key until `cb_fact_page` adds one,
hence the `Option Int` on `awaitReason`. -/
inductive Session where
  | pickFact (dealId : String) (page : Int)
  | awaitReason (dealId factVal factName : String) (page : Option Int)
deriving Repr, DecidableEq

/-- `ctx["page"] = page`: only the page entry of the dict changes. -/
def Session.setPage : Session → Int → Session
  | .pickFact d _, p => .pickFact d p
  | .awaitReason d v n _, p => .awaitReason d v n (some p)

abbrev UserId := Nat

/-- `_PENDING_CLOSE`: a Python dict keyed by the Telegram user id, modelled
as an association list whose keys are kept unique. -/
abbrev Store := List (UserId × Session)

/-- `store.get(u)`. -/
def dictGet : Store → UserId → Option Session
  | [], _ => none
  | e :: rest, u => if e.1 = u then some e.2 else dictGet rest u

/-- `store[u] = s`: replace the entry in place, or append a new one. -/
def dictSet : Store → UserId → Session → Store
  | [], u, s => [(u, s)]
  | e :: rest, u, s => if e.1 = u then (u, s) :: rest else e :: dictSet rest u s

/-- `store.pop(u, None)`. -/
def dictPop : Store → UserId → Store
  | [], _ => []
  | e :: rest, u => if e.1 = u then dictPop rest u else e :: dictPop rest u

/-- The keys of the store are pairwise distinct (the Python-dict invariant). -/
def keysNodup (store : Store) : Prop :=
  (store.map (fun e => e.1)).Nodup

/-- The collaborators the handlers touch: the cached outcome enumeration
(`get_fact_enum_list`), the CRM read side (`crm.deal.get`), the brigade
store (`get_user_brigade`), and whether `crm.deal.update` raises. -/
structure Env where
  facts : List (String × String)
  deals : String → Option Deal
  brigadeOf : UserId → Option Nat
  updateErr : Bool

/-- The outbound messages a handler produces (rendering content is out of
scope; each constructor tags one `answer`/`edit` site of the source). -/
inductive Reply where
  | closePrompt (dealId : String) (kb : FactsKb)
  | pageEdit (kb : FactsKb)
  | pickFailMsg
  | chosenPrompt (factName : String)
  | nothingPending
  | closedOk (dealId : String)
  | dealCard (dealId : String)
  | closeError (msg : String)
  | cancelled
deriving Repr, DecidableEq

/-- The observable effect of one handler invocation: the new session store,
the outbound messages, and the `crm.deal.update` calls issued. -/
structure HandlerOut where
  store : Store
  replies : List Reply
  updates : List (String × UpdateFields)
deriving Repr, DecidableEq

/-- Python `s.split(":")`, written structurally over the character list so
that it evaluates by kernel reduction. -/
def splitColonAux : List Char → List Char → List (List Char)
  | [], cur => [cur.reverse]
  | c :: rest, cur =>
    if c = ':' then cur.reverse :: splitColonAux rest []
    else splitColonAux rest (c :: cur)

/-- Python `s.split(":")` on the callback payload. -/
def splitColon (s : String) : List String :=
  (splitColonAux s.data []).map (fun l => ⟨l⟩)

/-- Join strings with ":" (to undo a full split past the first separator). -/
def joinColon : List String → String
  | [] => ""
  | [s] => s
  | s :: rest => s ++ ":" ++ joinColon rest

/-- `c.data.split(":", 1)[1]`: everything after the first colon. The aiogram
filter guarantees the payload starts with the handler's prefix, so a colon
is present. -/
def pySplitRest (data : String) : String :=
  joinColon ((splitColon data).drop 1)

/-- `_finalize_close` from app_web/main.py: fetch the deal (falsy result
raises), build the update payload, issue `crm.deal.update` (which may raise). -/
def runFinalizeClose (env : Env) (u : UserId)
    (dealId factVal factName reasonText : String) : Except String UpdateFields :=
  match env.deals dealId with
  | none => Except.error "Deal not found"
  | some deal =>
    let fields := mkUpdateFields deal (env.brigadeOf u) factVal factName reasonText
    if env.updateErr then Except.error "update failed" else Except.ok fields

/-- The shared commit tail of `cb_reason_skip` and `catch_reason_text`:
try `_finalize_close` (success answers and re-sends the deal card, failure
answers the error) and in both cases pop the user's pending session. -/
def commitClose (env : Env) (store : Store) (u : UserId)
    (dealId factVal factName reasonText : String) : HandlerOut :=
  match runFinalizeClose env u dealId factVal factName reasonText with
  | Except.ok fields =>
    { store := dictPop store u
      replies := [Reply.closedOk dealId, Reply.dealCard dealId]
      updates := [(dealId, fields)] }
  | Except.error e =>
    { store := dictPop store u
      replies := [Reply.closeError e]
      updates := [] }

/-- `cb_close_deal_start`: unconditionally installs a fresh `pick_fact`
session and sends the first keyboard page. -/
def cbCloseDealStart (env : Env) (store : Store) (u : UserId) (data : String) :
    HandlerOut :=
  let dealId := pySplitRest data
  { store := dictSet store u (Session.pickFact dealId 0)
    replies := [Reply.closePrompt dealId (factsPageKb dealId 0 env.facts)]
    updates := [] }

/-- `cb_fact_page`: re-render the keyboard at the requested page (clamped
only inside `_facts_page_kb`) and store the raw page on the session if one
exists. `int(...)` failure falls back to page 0. -/
def cbFactPage (env : Env) (store : Store) (u : UserId) (data : String) :
    HandlerOut :=
  let parts := splitColon data
  if parts.length < 3 then { store := store, replies := [], updates := [] }
  else
    let dealId := parts.getD 1 ""
    let pageS := parts.getD 2 ""
    let page := (pyIntParse pageS).getD 0
    let store2 :=
      match dictGet store u with
      | none => store
      | some ctx => dictSet store u (ctx.setPage page)
    { store := store2
      replies := [Reply.pageEdit (factsPageKb dealId page env.facts)]
      updates := [] }

/-- `next((n for v, n in facts if v == fact_val), "")`. -/
def lookupFactName (facts : List (String × String)) (factVal : String) : String :=
  match facts.find? (fun vn => vn.1 == factVal) with
  | some vn => vn.2
  | none => ""

/-- `cb_fact_select`: look the outcome id up in the cached enumeration; an
empty lookup answers a failure and leaves everything as it was, otherwise a
fresh `await_reason` session replaces whatever the user had. -/
def cbFactSelect (env : Env) (store : Store) (u : UserId) (data : String) :
    HandlerOut :=
  let parts := splitColon data
  if parts.length < 3 then { store := store, replies := [], updates := [] }
  else
    let dealId := parts.getD 1 ""
    let factVal := parts.getD 2 ""
    let factName := lookupFactName env.facts factVal
    if factName = "" then
      { store := store, replies := [Reply.pickFailMsg], updates := [] }
    else
      { store := dictSet store u (Session.awaitReason dealId factVal factName none)
        replies := [Reply.chosenPrompt factName]
        updates := [] }

/-- `cb_reason_skip`: without an `await_reason` session this is the
"nothing pending" no-op; otherwise commit with an empty reason. -/
def cbReasonSkip (env : Env) (store : Store) (u : UserId) (_data : String) :
    HandlerOut :=
  match dictGet store u with
  | some (Session.awaitReason dealId factVal factName _) =>
    commitClose env store u dealId factVal factName ""
  | _ => { store := store, replies := [Reply.nothingPending], updates := [] }

/-- `cb_close_cancel`: pop the session, leave the record untouched. -/
def cbCloseCancel (_env : Env) (store : Store) (u : UserId) (_data : String) :
    HandlerOut :=
  { store := dictPop store u, replies := [Reply.cancelled], updates := [] }

/-- A plain text message. `catch_reason_text` runs only when the dispatcher
filter sees an `await_reason` session; any other message leaves the wizard
untouched. The reason is `(m.text or "").strip()`. -/
def onTextMessage (env : Env) (store : Store) (u : UserId) (text : String) :
    HandlerOut :=
  match dictGet store u with
  | some (Session.awaitReason dealId factVal factName _) =>
    commitClose env store u dealId factVal factName (pyStrip text)
  | _ => { store := store, replies := [], updates := [] }

/-- The inbound wizard actions (§6 of the spec), each carrying the raw
callback payload or message text. -/
inductive WAct where
  | closeStart (data : String)
  | factPage (data : String)
  | factSel (data : String)
  | reasonSkip (data : String)
  | closeCancel (data : String)
  | textMsg (text : String)
deriving Repr, DecidableEq

/-- Dispatch of one inbound action to its handler. -/
def stepA (env : Env) (store : Store) (u : UserId) : WAct → HandlerOut
  | WAct.closeStart data => cbCloseDealStart env store u data
  | WAct.factPage data => cbFactPage env store u data
  | WAct.factSel data => cbFactSelect env store u data
  | WAct.reasonSkip data => cbReasonSkip env store u data
  | WAct.closeCancel data => cbCloseCancel env store u data
  | WAct.textMsg text => onTextMessage env store u text

/-- Run a sequence of inbound actions, threading the session store. -/
def runA (env : Env) : Store → List (UserId × WAct) → Store
  | store, [] => store
  | store, (u, a) :: rest => runA env (stepA env store u a).store rest

/-- Run a sequence of inbound actions and also collect every
`crm.deal.update` call issued along the way. -/
def runAll (env : Env) (seq : List (UserId × WAct)) :
    Store × List (String × UpdateFields) :=
  seq.foldl
    (fun acc ua =>
      let out := stepA env acc.1 ua.1 ua.2
      (out.store, acc.2 ++ out.updates))
    ([], [])

/-- The deal of the spec's end-to-end close scenario: record 42 in pipeline
category 20, with no prior comment. -/
def dealScenario : Deal := { CATEGORY_ID := some "20", COMMENTS := none }

/-- Environment of the close scenario: one outcome option (id 7, label
"Fixed onsite"), record 42 fetchable, the acting user in crew 3, a healthy
backend. -/
def envScenario : Env :=
  { facts := [("7", "Fixed onsite")]
    deals := fun id => if id = "42" then some dealScenario else none
    brigadeOf := fun _ => some 3
    updateErr := false }

/-- The spec's close scenario as inbound actions of one user: start close on
record 42, select outcome 7, skip the reason. -/
def scenarioSeq : List (UserId × WAct) :=
  [(99, WAct.closeStart "close:42"),
   (99, WAct.factSel "factsel:42:7"),
   (99, WAct.reasonSkip "reason_skip:42")]

/-- The update payload the scenario actually produces. -/
def scenarioFields : UpdateFields :=
  { STAGE_ID := "C20:WON"
    COMMENTS := "[p]<b>Закриття:</b> Fixed onsite[/p]"
    UF_CRM_1602766787968 := "7"
    UF_CRM_1702456465911 := ""
    UF_CRM_1611995532420 := some [5498] }

/-- 17 enumeration options, as in the spec's pagination scenario. -/
def facts17 : List (String × String) :=
  (List.range 17).map (fun i => (toString (i + 1), "Option " ++ toString (i + 1)))

/-- An environment holding the 17-option enumeration. -/
def env17 : Env :=
  { facts := facts17
    deals := fun _ => none
    brigadeOf := fun _ => none
    updateErr := false }

/-- A store where user 7 is picking an outcome for record 42. -/
def storePick : Store := [(7, Session.pickFact "42" 0)]

/-- A store where user 7 awaits the reason for outcome 7 on record 42. -/
def storeAwait : Store := [(7, Session.awaitReason "42" "7" "Fixed onsite" none)]

/-- An environment whose `crm.deal.update` raises, for the error-path
equivalence of skip and empty text. -/
def envUpdateErr : Env :=
  { facts := [("7", "Fixed onsite")]
    deals := fun id => if id = "42" then some dealScenario else none
    brigadeOf := fun _ => some 3
    updateErr := true }

theorem dictGet_dictSet (l : Store) (u : UserId) (s : Session) :
    dictGet (dictSet l u s) u = some s := by
  induction l with
  | nil => simp [dictSet, dictGet]
  | cons e rest ih =>
    by_cases h : e.1 = u
    · simp [dictSet, h, dictGet]
    · simp [dictSet, h, dictGet, ih]

theorem dictSet_dictSet (l : Store) (u : UserId) (s s2 : Session) :
    dictSet (dictSet l u s) u s2 = dictSet l u s2 := by
  induction l with
  | nil => simp [dictSet]
  | cons e rest ih =>
    by_cases h : e.1 = u
    · simp [dictSet, h]
    · simp [dictSet, h, ih]

theorem mem_keys_dictSet (l : Store) (u x : UserId) (s : Session)
    (h : x ∈ (dictSet l u s).map (fun e => e.1)) :
    x ∈ l.map (fun e => e.1) ∨ x = u := by
  induction l with
  | nil =>
    simp only [dictSet, List.map_cons, List.map_nil, List.mem_singleton] at h
    right; exact h
  | cons e rest ih =>
    by_cases he : e.1 = u
    · simp only [dictSet, he, ite_true, List.map_cons, List.mem_cons] at h
      rcases h with h | h
      · right; exact h
      · left; exact List.mem_cons_of_mem _ h
    · simp only [dictSet, he, ite_false, List.map_cons, List.mem_cons] at h
      rcases h with h | h
      · left; exact h ▸ List.mem_cons_self _ _
      · rcases ih h with h2 | h2
        · left; exact List.mem_cons_of_mem _ h2
        · right; exact h2

theorem keysNodup_dictSet (l : Store) (u : UserId) (s : Session)
    (h : keysNodup l) : keysNodup (dictSet l u s) := by
  induction l with
  | nil => simp [dictSet, keysNodup]
  | cons e rest ih =>
    unfold keysNodup at h ⊢
    simp only [List.map_cons, List.nodup_cons] at h
    obtain ⟨h1, h2⟩ := h
    by_cases he : e.1 = u
    · simp only [dictSet, he, if_pos, List.map_cons, List.nodup_cons]
      exact ⟨he ▸ h1, h2⟩
    · simp only [dictSet, he, if_neg, List.map_cons, List.nodup_cons, ite_false]
      refine ⟨fun hmem => ?_, ih h2⟩
      rcases mem_keys_dictSet rest u e.1 s hmem with hin | heq
      · exact h1 hin
      · exact he heq

theorem mem_keys_dictPop (l : Store) (u x : UserId)
    (h : x ∈ (dictPop l u).map (fun e => e.1)) :
    x ∈ l.map (fun e => e.1) := by
  induction l with
  | nil => simp [dictPop] at h
  | cons e rest ih =>
    by_cases he : e.1 = u
    · simp only [dictPop, he, ite_true] at h
      exact List.mem_cons_of_mem _ (ih h)
    · simp only [dictPop, he, ite_false, List.map_cons, List.mem_cons] at h
      rcases h with h | h
      · exact h ▸ List.mem_cons_self _ _
      · exact List.mem_cons_of_mem _ (ih h)

theorem keysNodup_dictPop (l : Store) (u : UserId)
    (h : keysNodup l) : keysNodup (dictPop l u) := by
  induction l with
  | nil => simp [dictPop, keysNodup]
  | cons e rest ih =>
    unfold keysNodup at h ⊢
    simp only [List.map_cons, List.nodup_cons] at h
    obtain ⟨h1, h2⟩ := h
    by_cases he : e.1 = u
    · simp only [dictPop, he, ite_true]
      exact ih h2
    · simp only [dictPop, he, ite_false, List.map_cons, List.nodup_cons]
      exact ⟨fun hmem => h1 (mem_keys_dictPop rest u e.1 hmem), ih h2⟩

theorem keysNodup_stepA (env : Env) (store : Store) (u : UserId) (a : WAct)
    (h : keysNodup store) : keysNodup (stepA env store u a).store := by
  cases a with
  | closeStart data => exact keysNodup_dictSet _ _ _ h
  | factPage data =>
    simp only [stepA, cbFactPage]
    split
    · exact h
    · split
      · exact h
      · exact keysNodup_dictSet _ _ _ h
  | factSel data =>
    simp only [stepA, cbFactSelect]
    split
    · exact h
    · split
      · exact h
      · exact keysNodup_dictSet _ _ _ h
  | reasonSkip data =>
    simp only [stepA, cbReasonSkip]
    split
    · simp only [commitClose]
      split
      · exact keysNodup_dictPop _ _ h
      · exact keysNodup_dictPop _ _ h
    · exact h
  | closeCancel data => exact keysNodup_dictPop _ _ h
  | textMsg text =>
    simp only [stepA, onTextMessage]
    split
    · simp only [commitClose]
      split
      · exact keysNodup_dictPop _ _ h
      · exact keysNodup_dictPop _ _ h
    · exact h

theorem keysNodup_runA (env : Env) (seq : List (UserId × WAct)) :
    ∀ store : Store, keysNodup store → keysNodup (runA env store seq) := by
  induction seq with
  | nil => intro store h; exact h
  | cons ua rest ih =>
    intro store h
    obtain ⟨u, a⟩ := ua
    exact ih _ (keysNodup_stepA env store u a h)

theorem setPage_setPage (s : Session) (p : Int) :
    (s.setPage p).setPage p = s.setPage p := by
  cases s <;> rfl

theorem b24ListLoop_offset (items : List α) (P : Nat) :
    ∀ (fuel start : Nat) (acc : List α),
      items.length < start + fuel * P →
      b24ListLoop (offsetServer items P) P fuel start acc = acc ++ items.drop start := by
  intro fuel
  induction fuel with
  | zero =>
    intro start acc h
    simp only [Nat.zero_mul, Nat.add_zero] at h
    simp only [b24ListLoop]
    rw [List.drop_eq_nil_of_le (Nat.le_of_lt h), List.append_nil]
  | succ fuel ih =>
    intro start acc h
    simp only [b24ListLoop, offsetServer]
    by_cases hc : ((items.drop start).take P).length < P
    · simp only [hc, ite_true]
      have hlen : (items.drop start).length ≤ P := by
        rw [List.length_take] at hc
        omega
      rw [List.take_of_length_le hlen]
    · simp only [hc, ite_false]
      have hm : (fuel + 1) * P = fuel * P + P := by ring
      rw [ih (start + P) _ (by omega)]
      rw [List.append_assoc]
      congr 1
      rw [← List.drop_drop, List.take_append_drop]

theorem reportCountLoop_cursor (n P : Nat) (hn : n ≤ 1000) :
    ∀ (fuel s : Nat), s < n → n ≤ s + fuel * P →
      reportCountLoop (cursorServer n P) fuel s s = n := by
  intro fuel
  induction fuel with
  | zero => intro s h1 h2; simp only [Nat.zero_mul, Nat.add_zero] at h2; omega
  | succ fuel ih =>
    intro s h1 h2
    have hlt : s < 1000 := Nat.lt_of_lt_of_le h1 hn
    simp only [reportCountLoop, cursorServer, hlt, ite_true, List.length_replicate]
    by_cases hnext : s + P < n
    · simp only [hnext, ite_true, List.length_replicate]
      have hmin : min P (n - s) = P := by omega
      rw [hmin]
      have hm : (fuel + 1) * P = fuel * P + P := by ring
      exact ih (s + P) hnext (by omega)
    · simp only [hnext, ite_false, List.length_replicate]
      have hmin : min P (n - s) = n - s := by omega
      rw [hmin]
      omega

theorem one_le_totalPagesOf (facts : List (String × String)) :
    1 ≤ totalPagesOf facts :=
  le_max_left 1 _

theorem clampPage_lt (page : Int) (tp : Nat) (h : 1 ≤ tp) :
    clampPage page tp < tp := by
  unfold clampPage
  have h1 : min page ((tp : Int) - 1) ≤ (tp : Int) - 1 := min_le_right _ _
  have h2 : max (min page ((tp : Int) - 1)) 0 ≤ (tp : Int) - 1 := by
    apply max_le h1
    omega
  omega

/-- Claim C1, counterexample. Running the spec's close scenario (record 42,
category 20, crew 3, outcome id 7 labelled "Fixed onsite", reason skipped)
issues its single update with terminal stage "C20:WON", not the "C20:DONE"
the claim states. -/
theorem claim1_counterexample :
    (runAll envScenario scenarioSeq).2 = [("42", scenarioFields)]
    ∧ scenarioFields.STAGE_ID = "C20:WON"
    ∧ ("C20:WON" : String) ≠ "C20:DONE" := by
  refine ⟨by decide, rfl, by decide⟩

/-- Claim C1, amended: for every fetched deal the single update's target
terminal stage is the deterministic mapping category ↦ "C{category}:WON"
(default category "0"), and the spec scenario produces exactly one update
call carrying stage "C20:WON", outcome field "7", reason field "", the crew-3
executor tag 5498, and a comment containing "Fixed onsite". -/
theorem claim1_amended :
    (∀ (d : Deal) (b : Option Nat) (v n r : String),
        (mkUpdateFields d b v n r).STAGE_ID = "C" ++ pyOrS d.CATEGORY_ID "0" ++ ":WON")
    ∧ (runAll envScenario scenarioSeq).2 = [("42", scenarioFields)]
    ∧ scenarioFields.UF_CRM_1602766787968 = "7"
    ∧ scenarioFields.UF_CRM_1702456465911 = ""
    ∧ scenarioFields.UF_CRM_1611995532420 = some [5498]
    ∧ (∃ pre post, scenarioFields.COMMENTS = pre ++ "Fixed onsite" ++ post) := by
  refine ⟨fun d b v n r => rfl, by decide, rfl, rfl, rfl,
    ⟨"[p]<b>Закриття:</b> ", "[/p]", by decide⟩⟩

/-- A backend that answers every attempt with Bitrix's rate-limit error. -/
def rateLimitedBackend : Nat → BxResponse Unit := fun _ =>
  { error := some "QUERY_LIMIT_EXCEEDED"
    error_description := some "Too many requests"
    result := none }

/-- Claim C2, counterexample. Against an always-rate-limited backend `b24`
performs exactly one attempt — not the five the claim states — and raises
the error immediately. -/
theorem claim2_counterexample :
    (b24 rateLimitedBackend).1 = 1
    ∧ (1 : Nat) ≠ 5
    ∧ (b24 rateLimitedBackend).2
        = Except.error "B24 error: QUERY_LIMIT_EXCEEDED: Too many requests" := by
  refine ⟨rfl, by decide, rfl⟩

/-- Claim C2, amended: `b24` performs exactly one attempt per call and never
retries — its outcome depends only on the first response — raising every
backend error (rate-limited included) immediately and returning the result
envelope otherwise. -/
theorem claim2_amended :
    ∀ (α : Type) (backend backend2 : Nat → BxResponse α),
      (b24 backend).1 = 1
      ∧ ((backend 0).error = none → (b24 backend).2 = Except.ok (backend 0).result)
      ∧ (∀ e, (backend 0).error = some e →
          (b24 backend).2 = Except.error
            ("B24 error: " ++ e ++ ": " ++ ((backend 0).error_description).getD "None"))
      ∧ (backend 0 = backend2 0 → b24 backend = b24 backend2) := by
  intro α backend backend2
  refine ⟨?_, ?_, ?_, ?_⟩
  · cases h : (backend 0).error <;> simp [b24, h]
  · intro h; simp [b24, h]
  · intro e h; simp [b24, h]
  · intro h; simp only [b24, h]

/-- A healthy backend answering with a result envelope. -/
def okBackend : Nat → BxResponse Unit := fun _ =>
  { error := none, error_description := none, result := some () }

/-- A backend agreeing with `okBackend` on the first attempt only. -/
def okBackendVariant : Nat → BxResponse Unit := fun n =>
  if n = 0 then { error := none, error_description := none, result := some () }
  else { error := some "QUERY_LIMIT_EXCEEDED", error_description := none, result := none }

/-- Claim C2 witness: the amended theorem applied to concrete backends. -/
theorem claim2_witness :
    ((okBackend 0).error = none ∧ (b24 okBackend).2 = Except.ok (okBackend 0).result)
    ∧ (okBackend 0 = okBackendVariant 0 ∧ b24 okBackend = b24 okBackendVariant) :=
  ⟨⟨rfl, (claim2_amended Unit okBackend okBackendVariant).2.1 rfl⟩,
   ⟨rfl, (claim2_amended Unit okBackend okBackendVariant).2.2.2 rfl⟩⟩

/-- Claim C3, counterexample. A user with no pending session who sends a
select-outcome action with a known outcome id does not get the
"nothing pending" no-op: the handler installs a fresh `await_reason` session,
so the user does not stay session-less. -/
theorem claim3_counterexample :
    dictGet ([] : Store) 7 = none
    ∧ cbFactSelect envScenario [] 7 "factsel:42:7"
        = { store := [(7, Session.awaitReason "42" "7" "Fixed onsite" none)]
            replies := [Reply.chosenPrompt "Fixed onsite"]
            updates := [] }
    ∧ dictGet (cbFactSelect envScenario [] 7 "factsel:42:7").store 7
        = some (Session.awaitReason "42" "7" "Fixed onsite" none)
    ∧ some (Session.awaitReason "42" "7" "Fixed onsite" none) ≠ (none : Option Session) := by
  refine ⟨rfl, by decide, by decide, by decide⟩

/-- Claim C3, amended: with no pending session, none of the wizard actions
crashes or issues a backend update; skip/provide-reason yields the
"nothing pending" acknowledgment and leaves the store unchanged; page
navigation leaves the store unchanged (without the acknowledgment); a text
message is ignored by the wizard; select-outcome issues no update but, for a
known outcome id, installs a fresh `await_reason` session instead of being a
no-op. -/
theorem claim3_amended :
    ∀ (env : Env) (store : Store) (u : UserId) (data text : String),
      dictGet store u = none →
      cbReasonSkip env store u data
          = { store := store, replies := [Reply.nothingPending], updates := [] }
      ∧ (cbFactPage env store u data).store = store
      ∧ (cbFactPage env store u data).updates = []
      ∧ onTextMessage env store u text = { store := store, replies := [], updates := [] }
      ∧ (cbFactSelect env store u data).updates = [] := by
  intro env store u data text h
  refine ⟨?_, ?_, ?_, ?_, ?_⟩
  · simp only [cbReasonSkip, h]
  · simp only [cbFactPage, h]
    split <;> rfl
  · simp only [cbFactPage, h]
    split <;> rfl
  · simp only [onTextMessage, h]
  · simp only [cbFactSelect]
    split
    · rfl
    · split <;> rfl

/-- Claim C3 witness: the amended theorem at a concrete session-less user. -/
theorem claim3_witness :
    dictGet ([] : Store) 5 = none
    ∧ cbReasonSkip envScenario [] 5 "reason_skip:42"
        = { store := [], replies := [Reply.nothingPending], updates := [] }
    ∧ onTextMessage envScenario [] 5 "hello"
        = { store := [], replies := [], updates := [] } := by
  refine ⟨rfl, ?_, ?_⟩
  · exact (claim3_amended envScenario [] 5 "reason_skip:42" "hello" rfl).1
  · exact (claim3_amended envScenario [] 5 "reason_skip:42" "hello" rfl).2.2.2.1

/-- Claim C4, counterexample. Selecting an unknown outcome id while a
`pick_fact` session is pending reports the failure but does not remove the
session: the user is left mid-wizard, not back at Idle. -/
theorem claim4_counterexample :
    dictGet storePick 7 = some (Session.pickFact "42" 0)
    ∧ lookupFactName envScenario.facts "99" = ""
    ∧ cbFactSelect envScenario storePick 7 "factsel:42:99"
        = { store := storePick, replies := [Reply.pickFailMsg], updates := [] }
    ∧ dictGet (cbFactSelect envScenario storePick 7 "factsel:42:99").store 7
        ≠ (none : Option Session) := by
  refine ⟨rfl, rfl, by decide, by decide⟩

/-- Claim C4, amended: an unknown outcome id yields a user-visible failure
message, no crash, no backend update, and no `await_reason` session — but
the pending session is left exactly as it was rather than removed. -/
theorem claim4_amended :
    ∀ (env : Env) (store : Store) (u : UserId) (data d v : String),
      splitColon data = ["factsel", d, v] →
      lookupFactName env.facts v = "" →
      cbFactSelect env store u data
        = { store := store, replies := [Reply.pickFailMsg], updates := [] } := by
  intro env store u data d v hsplit hlook
  simp [cbFactSelect, hsplit, hlook]

/-- Claim C4 witness: the amended theorem at the concrete unknown id 99. -/
theorem claim4_witness :
    splitColon "factsel:42:99" = ["factsel", "42", "99"]
    ∧ lookupFactName envScenario.facts "99" = ""
    ∧ cbFactSelect envScenario storePick 3 "factsel:42:99"
        = { store := storePick, replies := [Reply.pickFailMsg], updates := [] } := by
  refine ⟨rfl, rfl, ?_⟩
  exact claim4_amended envScenario storePick 3 "factsel:42:99" "42" "99" rfl rfl

/-- Boolean string-prefix test, structural so it evaluates by reduction. -/
def isPrefixChars : List Char → List Char → Bool
  | [], _ => true
  | _ :: _, [] => false
  | a :: as, b :: bs => a = b && isPrefixChars as bs

/-- Does `p` begin `s`? -/
def strIsPrefix (p s : String) : Bool := isPrefixChars p.data s.data

/-- A deal whose fetched comment is non-empty but carries `[p]` tags. -/
def dealTagged : Deal := { CATEGORY_ID := some "20", COMMENTS := some "[p]old[/p]" }

/-- Claim C5, counterexample. For a record whose fetched non-empty comment is
"[p]old[/p]", the comment sent in the update starts with the tag-stripped
"old", not with the prior content unchanged: the prior text is not preserved
verbatim. -/
theorem claim5_counterexample :
    pyOrS dealTagged.COMMENTS "" = "[p]old[/p]"
    ∧ ("[p]old[/p]" : String) ≠ ""
    ∧ (mkUpdateFields dealTagged none "7" "Fix" "").COMMENTS
        = "old\n\n[p]<b>Закриття:</b> Fix[/p]"
    ∧ strIsPrefix "[p]old[/p]" (mkUpdateFields dealTagged none "7" "Fix" "").COMMENTS
        = false := by
  refine ⟨rfl, by decide, by decide, by decide⟩

/-- Claim C5, amended: the update's comment preserves the prior content only
up to `_strip_bb` — the `[p]`/`[/p]` tags are removed and surrounding
whitespace trimmed — and equals that stripped prior followed by a blank line
and the audit block; the block carries the escaped outcome label, and the
reason line appears exactly when the reason is non-empty. -/
theorem claim5_amended :
    ∀ (cat : Option String) (b : Option Nat) (prior v n r : String),
      stripBB prior ≠ "" →
      (mkUpdateFields { CATEGORY_ID := cat, COMMENTS := some prior } b v n r).COMMENTS
          = stripBB prior ++ "\n\n" ++ closeBlock n r
      ∧ closeBlock n "" = "[p]<b>Закриття:</b> " ++ htmlEscape n ++ "[/p]"
      ∧ (r ≠ "" → closeBlock n r
          = "[p]<b>Закриття:</b> " ++ htmlEscape n ++ "[/p]"
            ++ "\n[p]<b>Причина ремонту:</b> " ++ htmlEscape r ++ "[/p]") := by
  intro cat b prior v n r h
  have hp : prior ≠ "" := by
    intro he
    apply h
    rw [he]
    rfl
  refine ⟨?_, rfl, ?_⟩
  · simp only [mkUpdateFields, pyOrS, hp, ite_false, h]
  · intro hr
    simp only [closeBlock, hr, ite_false]

/-- Claim C5 witness: the amended theorem at a concrete tagged, padded prior
comment and a non-empty reason. -/
theorem claim5_witness :
    stripBB " old [p]note[/p] " ≠ ""
    ∧ (mkUpdateFields { CATEGORY_ID := some "20", COMMENTS := some " old [p]note[/p] " }
          (some 3) "7" "Fix" "why").COMMENTS
        = stripBB " old [p]note[/p] " ++ "\n\n" ++ closeBlock "Fix" "why"
    ∧ ("why" : String) ≠ ""
    ∧ closeBlock "Fix" "why"
        = "[p]<b>Закриття:</b> " ++ htmlEscape "Fix" ++ "[/p]"
          ++ "\n[p]<b>Причина ремонту:</b> " ++ htmlEscape "why" ++ "[/p]" := by
  refine ⟨by decide, ?_, by decide, ?_⟩
  · exact (claim5_amended (some "20") (some 3) " old [p]note[/p] " "7" "Fix" "why"
      (by decide)).1
  · exact (claim5_amended (some "20") (some 3) " old [p]note[/p] " "7" "Fix" "why"
      (by decide)).2.2 (by decide)

/-- Claim C6, counterexample. The cursor-style loop of `build_full_report`
does not stop only when the continuation cursor is absent: against a
synthetic backend serving 1050 items in pages of 50 it stops at the 1000-item
cap and counts 1000, not 1050. -/
theorem claim6_counterexample :
    reportCount 1050 50 30 = 1000 ∧ (1000 : Nat) ≠ 1050 := by
  exact ⟨by decide, by decide⟩

/-- Claim C6, amended: offset-style `b24_list` against a synthetic backend of
N items in pages of size P returns exactly the N items, each once and in
order, stopping when a page comes back short; the cursor-style loop counts
exactly N only while N does not exceed its hard 1000-item cap (it also stops
once at least 1000 items have been accumulated). -/
theorem claim6_amended :
    (∀ (α : Type) (items : List α) (P fuel : Nat),
        items.length < fuel * P → b24List items P fuel = items)
    ∧ (∀ (n P fuel : Nat), 0 < P → n ≤ 1000 → n ≤ fuel * P →
        reportCount n P fuel = n) := by
  constructor
  · intro α items P fuel h
    unfold b24List
    rw [b24ListLoop_offset items P fuel 0 [] (by omega)]
    simp
  · intro n P fuel hP hn hf
    rcases Nat.eq_zero_or_pos n with hz | hpos
    · subst hz
      unfold reportCount
      cases fuel with
      | zero => rfl
      | succ fuel =>
        simp only [reportCountLoop, cursorServer]
        norm_num
    · exact reportCountLoop_cursor n P hn fuel 0 hpos (by omega)

/-- Claim C6 witness: the amended theorem at 17 items in pages of 8 for both
pagination styles. -/
theorem claim6_witness :
    ((List.range 17).length < 3 * 8 ∧ b24List (List.range 17) 8 3 = List.range 17)
    ∧ (0 < 8 ∧ 17 ≤ 1000 ∧ 17 ≤ 5 * 8 ∧ reportCount 17 8 5 = 17) := by
  refine ⟨⟨by decide, claim6_amended.1 Nat (List.range 17) 8 3 (by decide)⟩,
    ⟨by decide, by decide, by decide, claim6_amended.2 17 8 5 (by decide) (by decide) (by decide)⟩⟩

set_option maxRecDepth 8192 in
/-- Claim C7: `_facts_page_kb` is pure rendering over the cached option list:
the page index is clamped into `[0, pageCount-1]`, the visible buttons are
exactly the slice `options[page*8 : page*8+8]`, and in the 17-option spec
scenario page 0 shows options 1–8 with next but no previous affordance while
page 2 shows only option 17 with previous but no next affordance. -/
theorem claim7_menu_render :
    (∀ (dealId : String) (page : Int) (facts : List (String × String)),
        clampPage page (totalPagesOf facts) < totalPagesOf facts
        ∧ (factsPageKb dealId page facts).optionButtons
            = ((facts.drop (clampPage page (totalPagesOf facts) * factsPerPage)).take
                factsPerPage).map
                (fun vn => (vn.2.take 64, "factsel:" ++ dealId ++ ":" ++ vn.1)))
    ∧ facts17.length = 17
    ∧ (factsPageKb "42" 0 facts17).optionButtons
        = (List.range 8).map
            (fun i => ("Option " ++ toString (i + 1), "factsel:42:" ++ toString (i + 1)))
    ∧ (factsPageKb "42" 0 facts17).hasNext = true
    ∧ (factsPageKb "42" 0 facts17).hasPrev = false
    ∧ (factsPageKb "42" 2 facts17).optionButtons = [("Option 17", "factsel:42:17")]
    ∧ (factsPageKb "42" 2 facts17).hasPrev = true
    ∧ (factsPageKb "42" 2 facts17).hasNext = false := by
  refine ⟨fun dealId page facts =>
      ⟨clampPage_lt page (totalPagesOf facts) (one_le_totalPagesOf facts), rfl⟩,
    by decide, by decide, by decide, by decide, by decide, by decide, by decide⟩

/-- Claim C8, counterexample. With a 17-option enumeration (3 pages) and a
pending `pick_fact` session, navigating to page 99 stores page 99 on the
session — far outside `[0, pageCount-1]` — because only the rendering clamps. -/
theorem claim8_counterexample :
    totalPagesOf env17.facts = 3
    ∧ dictGet storePick 7 = some (Session.pickFact "42" 0)
    ∧ dictGet (cbFactPage env17 storePick 7 "factpage:42:99").store 7
        = some (Session.pickFact "42" 99)
    ∧ ¬ ((99 : Int) ≤ (3 : Int) - 1) := by
  refine ⟨by decide, rfl, by decide, by decide⟩

/-- Claim C8, amended: page navigation stores the raw requested page on the
session without clamping (the clamp applies only to the rendered keyboard),
changes no other session field (`pick_fact` keeps its record id and stage),
issues no backend update, and repeating the same navigation is idempotent on
the store. -/
theorem claim8_amended :
    ∀ (env : Env) (store : Store) (u : UserId) (data d ps : String) (p : Int) (s : Session),
      splitColon data = ["factpage", d, ps] →
      pyIntParse ps = some p →
      dictGet store u = some s →
      (cbFactPage env store u data).store = dictSet store u (s.setPage p)
      ∧ (∀ (d2 : String) (q : Int), (Session.pickFact d2 q).setPage p = Session.pickFact d2 p)
      ∧ (cbFactPage env store u data).replies = [Reply.pageEdit (factsPageKb d p env.facts)]
      ∧ (cbFactPage env store u data).updates = []
      ∧ (cbFactPage env (cbFactPage env store u data).store u data).store
          = (cbFactPage env store u data).store := by
  intro env store u data d ps p s hsplit hparse hget
  have hmain : cbFactPage env store u data
      = { store := dictSet store u (s.setPage p)
          replies := [Reply.pageEdit (factsPageKb d p env.facts)]
          updates := [] } := by
    simp [cbFactPage, hsplit, hparse, hget]
  refine ⟨by rw [hmain], fun d2 q => rfl, by rw [hmain], by rw [hmain], ?_⟩
  rw [hmain]
  have hget2 : dictGet (dictSet store u (s.setPage p)) u = some (s.setPage p) :=
    dictGet_dictSet store u (s.setPage p)
  simp [cbFactPage, hsplit, hparse, hget2, setPage_setPage, dictSet_dictSet]

/-- Claim C8 witness: the amended theorem at the concrete navigation to page
99 of the 17-option enumeration. -/
theorem claim8_witness :
    splitColon "factpage:42:99" = ["factpage", "42", "99"]
    ∧ pyIntParse "99" = some 99
    ∧ dictGet storePick 7 = some (Session.pickFact "42" 0)
    ∧ (cbFactPage env17 storePick 7 "factpage:42:99").store
        = dictSet storePick 7 (Session.pickFact "42" 0 |>.setPage 99)
    ∧ (cbFactPage env17 (cbFactPage env17 storePick 7 "factpage:42:99").store 7
          "factpage:42:99").store
        = (cbFactPage env17 storePick 7 "factpage:42:99").store := by
  refine ⟨rfl, rfl, rfl, ?_, ?_⟩
  · exact (claim8_amended env17 storePick 7 "factpage:42:99" "42" "99" 99
      (Session.pickFact "42" 0) rfl rfl rfl).1
  · exact (claim8_amended env17 storePick 7 "factpage:42:99" "42" "99" 99
      (Session.pickFact "42" 0) rfl rfl rfl).2.2.2.2

/-- Claim C9: after any sequence of wizard actions starting from the empty
store, every user has at most one session (the store's keys stay pairwise
distinct), and a start-close action installs the fresh
`pick_fact(page 0)` session for its record over whatever the user had —
last-write-wins, never nesting, stacking or failing. -/
theorem claim9_single_session :
    (∀ (env : Env) (seq : List (UserId × WAct)), keysNodup (runA env [] seq))
    ∧ (∀ (env : Env) (store : Store) (u : UserId) (data : String),
        (cbCloseDealStart env store u data).store
            = dictSet store u (Session.pickFact (pySplitRest data) 0)
        ∧ dictGet (cbCloseDealStart env store u data).store u
            = some (Session.pickFact (pySplitRest data) 0)) := by
  constructor
  · intro env seq
    exact keysNodup_runA env seq [] (by simp [keysNodup])
  · intro env store u data
    exact ⟨rfl, dictGet_dictSet store u (Session.pickFact (pySplitRest data) 0)⟩

/-- Claim C10: for a session awaiting the reason, pressing Skip and sending a
whitespace-only text message are the same transition: both commit with the
empty reason — the whole handler outcome (messages, update payload, store)
coincides — and both clear the user's session whether or not the commit
raises. -/
theorem claim10_skip_blank_equiv :
    ∀ (env : Env) (store : Store) (u : UserId) (data text d v n : String)
      (pg : Option Int),
      dictGet store u = some (Session.awaitReason d v n pg) →
      pyStrip text = "" →
      cbReasonSkip env store u data = onTextMessage env store u text
      ∧ (cbReasonSkip env store u data).store = dictPop store u
      ∧ (onTextMessage env store u text).store = dictPop store u := by
  intro env store u data text d v n pg hget hstrip
  have h1 : cbReasonSkip env store u data = commitClose env store u d v n "" := by
    simp [cbReasonSkip, hget]
  have h2 : onTextMessage env store u text = commitClose env store u d v n "" := by
    simp [onTextMessage, hget, hstrip]
  have h3 : (commitClose env store u d v n "").store = dictPop store u := by
    unfold commitClose
    cases runFinalizeClose env u d v n "" <;> rfl
  exact ⟨h1.trans h2.symm, by rw [h1, h3], by rw [h2, h3]⟩

/-- Claim C10 witness: skip and a whitespace-only text coincide for the
concrete awaiting session even when `crm.deal.update` raises, and the
session is cleared. -/
theorem claim10_witness :
    dictGet storeAwait 7 = some (Session.awaitReason "42" "7" "Fixed onsite" none)
    ∧ pyStrip "  \t " = ""
    ∧ cbReasonSkip envUpdateErr storeAwait 7 "reason_skip:42"
        = onTextMessage envUpdateErr storeAwait 7 "  \t "
    ∧ (cbReasonSkip envUpdateErr storeAwait 7 "reason_skip:42").store = dictPop storeAwait 7
    ∧ dictPop storeAwait 7 = [] := by
  refine ⟨rfl, by decide, ?_, ?_, rfl⟩
  · exact (claim10_skip_blank_equiv envUpdateErr storeAwait 7 "reason_skip:42" "  \t "
      "42" "7" "Fixed onsite" none rfl (by decide)).1
  · exact (claim10_skip_blank_equiv envUpdateErr storeAwait 7 "reason_skip:42" "  \t "
      "42" "7" "Fixed onsite" none rfl (by decide)).2.1
